import Mathlib

/-!
Formal model of the AluQuote correlation and budget calculation engine.

The definitions below are a shallow embedding of
`src/backend/budget_calculator.py` (class `BudgetCalculator` and its
helpers) and of the parts of `src/backend/cost_database.py` that the
budget path uses (`SteelProfile.calculate_cost`).

Modelling conventions:
* Python floats are modelled as exact rationals (`ℚ`); the source performs
  only field arithmetic, so every identity proved here holds for the float
  program up to floating rounding.
* Python dicts with a fixed key set are modelled as structures.  A key that
  is read with `dict.get(k, d)` is modelled as an `Option` field when the
  distinction between an absent key and a present default matters, and as a
  plain field otherwise.
* Python `None` and an absent key are modelled uniformly as `none`.
* `int(x)` on a number truncates toward zero (`rat_trunc`); on a
  non-numeric value it raises, which is modelled with `Except`
  (`py_int` below), mirroring Python `ValueError` / `TypeError`.
* String operations are modelled on ASCII data (`py_upper`, `py_lower`,
  `py_strip`), which agree with Python `str.upper/lower/strip` on the
  ASCII inputs the engine manipulates.
* The two regex-driven sub-steps (`_parse_dimension`, and the
  profile-designation extraction plus `cost_db.find_profile` used by
  `_try_calculate_from_cost_db`) are pure string-classification rules.
  They are modelled as an explicit environment (`RegexEnv`) over which all
  theorems are universally quantified, so every theorem holds in
  particular for the concrete regular expressions of the source.
* `self.correlation_log` is instance state initialised once in
  `BudgetCalculator.__init__` and only ever appended to; it is threaded
  explicitly.  `self.line_items` is reset at the start of every
  `calculate_budget` call (line 586 of the source), so it is modelled by
  the per-run result list.
* `datetime.now()` is a side effect outside the model; `created_at` is
  modelled as the empty string.  `by_description` in `_build_pdf_lookup`
  is built by the source but never read, so it is omitted.
-/

namespace AluQuote

/-- Python value that may sit under a dict key such as `quantity`:
a number, a string, or `None`. -/
inductive PyVal where
  | num (q : ℚ)
  | str (s : String)
  | pynone
deriving DecidableEq

/-- Python `int(q)` on a rational: truncation toward zero. -/
def rat_trunc (q : ℚ) : ℤ := if q < 0 then ⌈q⌉ else ⌊q⌋

/-- Python `s.strip()`: drop leading and trailing whitespace. -/
def py_strip (s : String) : String :=
  ⟨((s.data.dropWhile Char.isWhitespace).reverse.dropWhile Char.isWhitespace).reverse⟩

/-- ASCII decimal digit test. -/
def is_digit (c : Char) : Bool := 48 ≤ c.toNat && c.toNat ≤ 57

/-- Value of a non-empty all-digit character list. -/
def digits_value (cs : List Char) : ℕ :=
  cs.foldl (fun acc c => acc * 10 + (c.toNat - 48)) 0

/-- Parse an unsigned decimal literal. -/
def parse_digits (cs : List Char) : Option ℕ :=
  if cs ≠ [] ∧ cs.all is_digit then some (digits_value cs) else none

/-- Python `int(s)` on a string: optional surrounding whitespace, optional
sign, decimal digits; anything else raises (`none` here). -/
def py_str_to_int (s : String) : Option ℤ :=
  match (py_strip s).data with
  | [] => none
  | c :: rest =>
      if c == '-' then (parse_digits rest).map (fun n => -(n : ℤ))
      else if c == '+' then (parse_digits rest).map (fun n => (n : ℤ))
      else (parse_digits (c :: rest)).map (fun n => (n : ℤ))

/-- Python `int(x)` on a `PyVal`.  A numeric value truncates toward zero;
an integer-literal string parses; any other string raises `ValueError`;
`None` raises `TypeError`. -/
def py_int : PyVal → Except String ℤ
  | .num q => .ok (rat_trunc q)
  | .str s =>
      match py_str_to_int s with
      | some n => .ok n
      | none => .error "ValueError"
  | .pynone => .error "TypeError"

/-- Python `a or b` on strings: the empty string is falsy. -/
def py_or_str (a b : String) : String := if a = "" then b else a

/-- Python `a or b` on numbers: zero is falsy. -/
def py_or_q (a b : ℚ) : ℚ := if a = 0 then b else a

/-- Python `opt or d` where `opt` is an optional number
(`line.thickness_mm or 2.0`): `None` and `0` both fall back. -/
def py_or_opt (a : Option ℚ) (d : ℚ) : ℚ :=
  match a with
  | none => d
  | some v => if v = 0 then d else v

/-- ASCII uppercase of one character (Python `str.upper` on ASCII). -/
def py_upper_char (c : Char) : Char :=
  if 97 ≤ c.toNat ∧ c.toNat ≤ 122 then Char.ofNat (c.toNat - 32) else c

/-- ASCII lowercase of one character (Python `str.lower` on ASCII). -/
def py_lower_char (c : Char) : Char :=
  if 65 ≤ c.toNat ∧ c.toNat ≤ 90 then Char.ofNat (c.toNat + 32) else c

/-- Python `s.upper()` (ASCII fragment). -/
def py_upper (s : String) : String := ⟨s.data.map py_upper_char⟩

/-- Python `s.lower()` (ASCII fragment). -/
def py_lower (s : String) : String := ⟨s.data.map py_lower_char⟩

/-- Python substring test `needle in hay` on lists of characters. -/
def py_in_chars (needle : List Char) : List Char → Bool
  | [] => needle.isEmpty
  | c :: rest => needle.isPrefixOf (c :: rest) || py_in_chars needle rest

/-- Python substring test `needle in hay`. -/
def py_in (needle hay : String) : Bool := py_in_chars needle.data hay.data

/-- Python `re.sub(r'[\-_\s]', '', ref)`: drop dashes, underscores and
whitespace. -/
def strip_separators (s : String) : String :=
  ⟨s.data.filter (fun c => !(c == '-' || c == '_' || c.isWhitespace))⟩

/-- Python format `f"{n:02d}"` for a natural number. -/
def pad2 (n : ℕ) : String := if n < 10 then "0" ++ toString n else toString n

/-- Python `s[:k]`. -/
def py_take (s : String) (k : ℕ) : String := ⟨s.data.take k⟩

/-- One geometry profile dict from the DXF extractor, as read by
`budget_calculator.py` (keys `profile_id`, `layer`, `quantity`,
`perimeter_mm`, `area_mm2`, `length_mm`, `bounding_box`, `weight_kg`,
`complexity_score`, `entity_type`, `material_hint`, `features`).
`features` keeps only each feature's `feature_type` value, the sole key the
budget calculator reads. -/
structure DxfProfile where
  profile_id : String := ""
  layer : String := ""
  quantity : Option ℚ := none
  perimeter_mm : ℚ := 0
  area_mm2 : ℚ := 0
  length_mm : ℚ := 0
  bbox_width : ℚ := 0
  bbox_height : ℚ := 0
  weight_kg : ℚ := 0
  complexity_score : Option ℚ := none
  entity_type : Option String := none
  material_hint : Option String := none
  features : List (Option String) := []
deriving DecidableEq

/-- One entry of `dxf_data['material_quantities']` (block aggregates). -/
structure MaterialQty where
  source : Option String := none
  profile_reference : String := ""
  quantity : Option ℚ := none
  description : Option String := none
  unit_length_mm : ℚ := 0
  unit_area_mm2 : ℚ := 0
deriving DecidableEq

/-- One bill-of-materials row from the PDF extractor.  `quantity` is a raw
`PyVal` because `calculate_budget` applies Python `int()` to it. -/
structure PdfItem where
  reference : String := ""
  description : String := ""
  quantity : Option PyVal := none
  length_mm : Option ℚ := none
  material : Option String := none
  finish : Option String := none
  thickness_mm : Option ℚ := none
  notes : String := ""
deriving DecidableEq

/-- One technical constraint tuple from the PDF extractor. -/
structure Constraint where
  constraint_type : Option String := none
  value : Option String := none
  context : String := ""
  importance : Option String := none
deriving DecidableEq

/-- One entry of `pdf_data['dimension_specs']` (keys `raw` and
`dimensions`). -/
structure DimSpec where
  raw : String := ""
  dimensions : String := ""
deriving DecidableEq

/-- The `dxf_data` payload consumed by the budget calculator. -/
structure DxfData where
  success : Bool := false
  profiles : List DxfProfile := []
  material_quantities : List MaterialQty := []
deriving DecidableEq

/-- The `pdf_data` payload consumed by the budget calculator.
`material_specs` is fetched by `_create_fallback_correlations` but never
used, so it is omitted. -/
structure PdfData where
  success : Bool := false
  bom_items : List PdfItem := []
  constraints : List Constraint := []
  dimension_specs : List DimSpec := []
deriving DecidableEq

/-- One advisory note collected by `_extract_specifications` from a
high-importance constraint. -/
structure ConstraintNote where
  ctype : String
  value : Option String
  context : String
deriving DecidableEq

/-- The merged `specifications` payload built by
`_extract_specifications`. -/
structure SpecPayload where
  material : Option String := none
  finish : Option String := none
  thickness_mm : Option ℚ := none
  certifications : List (Option String) := []
  constraints : List ConstraintNote := []
deriving DecidableEq

/-- One correlation record produced by `correlate_data`. -/
structure Correlation where
  dxf_profile : Option DxfProfile := none
  material_quantity : Option MaterialQty := none
  pdf_item : Option PdfItem := none
  correlation_confidence : ℚ := 0
  correlation_method : String := ""
  quantity_source : String := "estimated"
  specifications : Option SpecPayload := none
deriving DecidableEq

/-- One entry appended to `self.correlation_log`. -/
inductive LogEntry where
  | usingDxfAsPrimary (dxfProfiles dxfMaterials : ℕ)
  | usingPdfAsFallback (pdfItems : ℕ)
  | creatingFallbackItems
deriving DecidableEq

/-- `PricingParameters` from `budget_calculator.py`, with the source's
defaults. -/
structure PricingParameters where
  lme_price_usd_kg : ℚ := 2.35
  lme_hedging_buffer_pct : ℚ := 5
  billet_premium_usd_kg : ℚ := 0.45
  alloy_6063_premium_pct : ℚ := 0
  alloy_6060_premium_pct : ℚ := 2
  alloy_6082_premium_pct : ℚ := 8
  anodizing_natural_eur_m2 : ℚ := 12
  anodizing_colored_eur_m2 : ℚ := 18
  powder_coating_standard_eur_m2 : ℚ := 15
  powder_coating_qualicoat_eur_m2 : ℚ := 22
  powder_coating_seaside_eur_m2 : ℚ := 35
  labor_rate_eur_hr : ℚ := 35
  cutting_time_mins : ℚ := 2
  machining_time_per_hole_mins : ℚ := 5
  assembly_time_per_component_mins : ℚ := 8
  base_waste_factor_pct : ℚ := 8
  complexity_waste_factor_pct : ℚ := 4
  overhead_factor_pct : ℚ := 15
  profit_margin_pct : ℚ := 20
  eur_to_usd : ℚ := 1.08
deriving DecidableEq

/-- `BudgetLineItem` from `budget_calculator.py`. -/
structure BudgetLineItem where
  line_id : ℤ := 0
  reference : String := ""
  description : String := ""
  quantity : ℤ := 0
  quantity_source : String := ""
  specs_source : String := ""
  profile_id : Option String := none
  perimeter_mm : ℚ := 0
  area_mm2 : ℚ := 0
  length_mm : ℚ := 0
  weight_kg : ℚ := 0
  complexity_score : ℚ := 1
  holes_count : ℕ := 0
  entity_type : String := ""
  material : Option String := none
  finish : Option String := none
  thickness_mm : Option ℚ := none
  raw_material_cost : ℚ := 0
  transformation_cost : ℚ := 0
  surface_treatment_cost : ℚ := 0
  labor_cost : ℚ := 0
  accessories_cost : ℚ := 0
  unit_cost : ℚ := 0
  total_cost : ℚ := 0
  correlation_confidence : ℚ := 0
  correlation_method : String := ""
  notes : String := ""
deriving DecidableEq

/-- `BudgetSummary` from `budget_calculator.py`.  `created_at` is the
`datetime.now()` side effect and is modelled as `""`. -/
structure BudgetSummary where
  project_name : String := ""
  created_at : String := ""
  has_dxf : Bool := false
  has_pdf : Bool := false
  dxf_files_count : ℕ := 0
  pdf_files_count : ℕ := 0
  total_profiles : ℕ := 0
  total_quantity : ℤ := 0
  total_weight_kg : ℚ := 0
  total_length_mm : ℚ := 0
  raw_material_total : ℚ := 0
  transformation_total : ℚ := 0
  surface_treatment_total : ℚ := 0
  labor_total : ℚ := 0
  accessories_total : ℚ := 0
  waste_cost : ℚ := 0
  overhead_cost : ℚ := 0
  subtotal : ℚ := 0
  profit_margin : ℚ := 0
  total_quote : ℚ := 0
  waste_percentage_applied : ℚ := 0
  average_complexity : ℚ := 0
  estimated_production_hours : ℚ := 0
deriving DecidableEq

/-- `SteelProfile` from `cost_database.py` (the cost-relevant fields). -/
structure SteelProfile where
  code : String := ""
  designation : String := ""
  weight_per_meter : ℚ := 0
  area_per_meter : ℚ := 0
  price_material : ℚ := 0
  price_fabrication : ℚ := 0
  price_assembly : ℚ := 0
  price_painting : ℚ := 0
  price_lifting : ℚ := 0
  price_consumables : ℚ := 0
  price_transport : ℚ := 0
deriving DecidableEq

/-- The dict returned by `SteelProfile.calculate_cost`. -/
structure SteelCostData where
  weight_kg : ℚ := 0
  area_m2 : ℚ := 0
  cost_material : ℚ := 0
  cost_fabrication : ℚ := 0
  cost_assembly : ℚ := 0
  cost_painting : ℚ := 0
  cost_lifting : ℚ := 0
  cost_consumables : ℚ := 0
  cost_transport : ℚ := 0
  total_cost : ℚ := 0
deriving DecidableEq

/-- `SteelProfile.calculate_cost` from `cost_database.py`: weight-based
rates for six components, area-based rate for painting. -/
def steel_calculate_cost (p : SteelProfile) (length_meters : ℚ) : SteelCostData :=
  let weight_kg := length_meters * p.weight_per_meter
  let area_m2 := length_meters * p.area_per_meter
  let cost_material := weight_kg * p.price_material
  let cost_fabrication := weight_kg * p.price_fabrication
  let cost_assembly := weight_kg * p.price_assembly
  let cost_lifting := weight_kg * p.price_lifting
  let cost_consumables := weight_kg * p.price_consumables
  let cost_transport := weight_kg * p.price_transport
  let cost_painting := area_m2 * p.price_painting
  { weight_kg := weight_kg
    area_m2 := area_m2
    cost_material := cost_material
    cost_fabrication := cost_fabrication
    cost_assembly := cost_assembly
    cost_painting := cost_painting
    cost_lifting := cost_lifting
    cost_consumables := cost_consumables
    cost_transport := cost_transport
    total_cost := cost_material + cost_fabrication + cost_assembly +
      cost_painting + cost_lifting + cost_consumables + cost_transport }

/-- Environment for the two regex-driven string-classification sub-steps of
the source, over which all theorems are universally quantified.
`db_lookup description reference profile_id` models the composition of the
`profile_patterns` regex scan over `[line.description, line.reference,
line.profile_id or ""]` in `_try_calculate_from_cost_db` with
`cost_db.find_profile`; it returns the catalog profile used for pricing,
or `none` when no designation matches (which in the source makes
`_try_calculate_from_cost_db` return `False`).
`parse_dimension` models `_parse_dimension` (`re.findall` of the numbers
in a dimension string and taking their maximum). -/
structure RegexEnv where
  db_lookup : String → String → String → Option SteelProfile
  parse_dimension : String → Option ℚ

/-- Insertion-ordered dict update (Python `d[k] = v` on a `dict`):
an existing key keeps its position, a new key is appended. -/
def dict_upsert (k : String) (v : PdfItem) : List (String × PdfItem) → List (String × PdfItem)
  | [] => [(k, v)]
  | (k2, v2) :: rest =>
      if k2 == k then (k, v) :: rest else (k2, v2) :: dict_upsert k v rest

/-- Python `d.get(k)` on the reference index. -/
def dict_get (d : List (String × PdfItem)) (k : String) : Option PdfItem :=
  (d.find? (fun kv => kv.1 == k)).map (·.2)

/-- The `by_reference` index of `_build_pdf_lookup`: each item is indexed
under its upper-cased stripped reference and under that reference with
separators removed.  Items with an empty reference are not indexed. -/
def build_by_reference (items : List PdfItem) : List (String × PdfItem) :=
  items.foldl
    (fun acc item =>
      let ref := py_strip (py_upper item.reference)
      if ref = "" then acc
      else dict_upsert (strip_separators ref) item (dict_upsert ref item acc))
    []

/-- `_index_constraints` lookup: the constraints of one type, in input
order (a missing `constraint_type` key counts as `"other"`). -/
def constraints_of_type (cs : List Constraint) (t : String) : List Constraint :=
  cs.filter (fun c => c.constraint_type.getD "other" = t)

/-- The distinct constraint types in first-occurrence order: the iteration
order of the dict built by `_index_constraints`. -/
def constraint_types_in_order (cs : List Constraint) : List String :=
  cs.foldl
    (fun acc c =>
      let t := c.constraint_type.getD "other"
      if t ∈ acc then acc else acc ++ [t])
    []

/-- Python falsiness of an optional string (`not specs["material"]`):
`None` and the empty string are falsy. -/
def opt_str_falsy : Option String → Bool
  | none => true
  | some s => s = ""

/-- `_extract_specifications`: prefer the matched PDF item's
material/finish/thickness, fill gaps from the first constraint of the
matching type, collect certifications and all high-importance
constraints. -/
def extract_specifications (pdf_item : Option PdfItem) (cs : List Constraint) : SpecPayload :=
  let base : SpecPayload :=
    match pdf_item with
    | some it =>
        { material := it.material, finish := it.finish, thickness_mm := it.thickness_mm }
    | none => {}
  let mats := constraints_of_type cs "material_grade"
  let material :=
    if mats ≠ [] ∧ opt_str_falsy base.material then
      (mats.headD {}).value
    else base.material
  let fins := constraints_of_type cs "surface_treatment"
  let finish :=
    if fins ≠ [] ∧ opt_str_falsy base.finish then
      (fins.headD {}).value
    else base.finish
  let certifications := (constraints_of_type cs "certification").map (·.value)
  let notes :=
    ((constraint_types_in_order cs).map
      (fun t =>
        (constraints_of_type cs t).filterMap
          (fun c =>
            if c.importance = some "high" then
              some { ctype := t, value := c.value, context := py_take c.context 100 }
            else none))).flatten
  { material := material
    finish := finish
    thickness_mm := base.thickness_mm
    certifications := certifications
    constraints := notes }

/-- `_correlate_profile_with_pdf`: three matching strategies in order
(layer as reference, profile-id substring, material hint), then the merged
specifications.  `quantity_source` is `"dxf"` unconditionally. -/
def correlate_profile_with_pdf (profile : DxfProfile)
    (by_reference : List (String × PdfItem)) (all_items : List PdfItem)
    (cs : List Constraint) : Correlation :=
  let profile_id := profile.profile_id
  let layer_upper := py_upper profile.layer
  let s1 := dict_get by_reference layer_upper
  let matched : Option (PdfItem × ℚ × String) :=
    match s1 with
    | some item => some (item, (9 : ℚ)/10, "layer_to_reference")
    | none =>
        let s2 := by_reference.find?
          (fun kv => py_in kv.1 (py_upper profile_id) || py_in (py_upper profile_id) kv.1)
        match s2 with
        | some kv => some (kv.2, (8 : ℚ)/10, "profile_id_match")
        | none =>
            match profile.material_hint with
            | some mh =>
                if mh ≠ "" then
                  match all_items.find?
                    (fun item => py_in (py_lower mh) (py_lower item.description)) with
                  | some item => some (item, (6 : ℚ)/10, "material_hint")
                  | none => none
                else none
            | none => none
  let matched_pdf := matched.map (·.1)
  let confidence := match matched with | some m => m.2.1 | none => 0
  let method := match matched with | some m => m.2.2 | none => "none"
  { dxf_profile := some profile
    pdf_item := matched_pdf
    correlation_confidence := confidence
    correlation_method := method
    quantity_source := "dxf"
    specifications := some (extract_specifications matched_pdf cs) }

/-- `_create_material_correlation`: correlation for a block-derived
material quantity; `quantity_source` is `"dxf"`. -/
def create_material_correlation (mq : MaterialQty)
    (by_reference : List (String × PdfItem)) (cs : List Constraint) : Correlation :=
  let matched_pdf := dict_get by_reference (py_upper mq.profile_reference)
  { material_quantity := some mq
    pdf_item := matched_pdf
    correlation_confidence := if matched_pdf.isSome then (7 : ℚ)/10 else (5 : ℚ)/10
    correlation_method := "block_count"
    quantity_source := "dxf"
    specifications := some (extract_specifications matched_pdf cs) }

/-- The state of the dimension-spec loop in
`_create_fallback_correlations`: the set of raw strings already seen and
the correlations accumulated so far. -/
def fallback_dim_step (env : RegexEnv) (st : List String × List Correlation)
    (dim : DimSpec) : List String × List Correlation :=
  let (seen, corrs) := st
  let dim_raw := py_or_str dim.raw dim.dimensions
  if dim_raw ≠ "" ∧ dim_raw ∉ seen then
    let seen := seen ++ [dim_raw]
    match env.parse_dimension dim_raw with
    | some length =>
        if length ≠ 0 ∧ length > 50 then
          (seen, corrs ++
            [{ pdf_item := some
                { reference := "DIM-" ++ pad2 (corrs.length + 1)
                  description := "Elemento " ++ dim_raw
                  quantity := some (.num 1)
                  length_mm := some length }
               correlation_confidence := (25 : ℚ)/100
               correlation_method := "dimension_extraction"
               quantity_source := "estimated" }])
        else (seen, corrs)
    | none => (seen, corrs)
  else (seen, corrs)

/-- `_create_fallback_correlations`: items synthesised from material-grade
constraints (max 10), surface-treatment constraints (max 5) and parsed
dimension strings (first 20 specs), and otherwise exactly one placeholder
item. -/
def create_fallback_correlations (env : RegexEnv) (pdf : PdfData) (_dxf : DxfData) :
    List Correlation :=
  let pdf_constraints := pdf.constraints
  let pdf_dimensions := pdf.dimension_specs
  let material_items := (constraints_of_type pdf_constraints "material_grade").take 10
  let mat_corrs := (List.range material_items.length).map
    (fun i =>
      let mat := material_items.getD i {}
      { pdf_item := some
          { reference := "MAT-" ++ pad2 (i + 1)
            description := "Material: " ++ (mat.value.getD "Alumínio")
            quantity := some (.num 1)
            notes := py_take mat.context 100 }
        correlation_confidence := (3 : ℚ)/10
        correlation_method := "constraint_extraction"
        quantity_source := "estimated"
        specifications := some { material := mat.value } })
  let treatment_items := (constraints_of_type pdf_constraints "surface_treatment").take 5
  let treat_corrs := (List.range treatment_items.length).map
    (fun i =>
      let treat := treatment_items.getD i {}
      { pdf_item := some
          { reference := "TRAT-" ++ pad2 (i + 1)
            description := "Tratamento: " ++ (treat.value.getD "Lacagem")
            quantity := some (.num 1)
            notes := py_take treat.context 100 }
        correlation_confidence := (3 : ℚ)/10
        correlation_method := "constraint_extraction"
        quantity_source := "estimated"
        specifications := some { finish := treat.value } })
  let corrs0 := mat_corrs ++ treat_corrs
  let corrs := ((pdf_dimensions.take 20).foldl (fallback_dim_step env) ([], corrs0)).2
  if corrs.isEmpty then
    [{ pdf_item := some
        { reference := "PROJ-01"
          description := "Projeto (análise automática: " ++
            toString pdf_constraints.length ++ " specs, " ++
            toString pdf_dimensions.length ++ " dimensões)"
          quantity := some (.num 1)
          notes := "Dados extraídos de desenhos técnicos. Revisão manual recomendada." }
       correlation_confidence := (1 : ℚ)/10
       correlation_method := "placeholder"
       quantity_source := "estimated" }]
  else corrs

/-- `correlate_data`: DXF-primary path when the geometry payload succeeded
with at least one profile, PDF-fallback path otherwise when BOM rows
exist, and the synthesised fallback when no correlation was produced.
Returns the correlations together with the log entries appended to
`self.correlation_log` during the call. -/
def correlate_data (env : RegexEnv) (dxf : DxfData) (pdf : PdfData) :
    List Correlation × List LogEntry :=
  let has_dxf := dxf.success && !dxf.profiles.isEmpty
  let has_pdf := pdf.success && !pdf.bom_items.isEmpty
  let by_reference := build_by_reference pdf.bom_items
  let (corrs, log) :=
    if has_dxf then
      (dxf.profiles.map
          (fun p => correlate_profile_with_pdf p by_reference pdf.bom_items pdf.constraints) ++
        dxf.material_quantities.filterMap
          (fun mq =>
            if mq.source = some "block_count" then
              some (create_material_correlation mq by_reference pdf.constraints)
            else none),
        [LogEntry.usingDxfAsPrimary dxf.profiles.length dxf.material_quantities.length])
    else if has_pdf then
      (pdf.bom_items.map
          (fun item =>
            { pdf_item := some item
              correlation_confidence := (5 : ℚ)/10
              correlation_method := "pdf_only"
              quantity_source := "pdf" }),
        [LogEntry.usingPdfAsFallback pdf.bom_items.length])
    else ([], [])
  if corrs.isEmpty then
    (create_fallback_correlations env pdf dxf, log ++ [LogEntry.creatingFallbackItems])
  else (corrs, log)

/-- `BudgetCalculator.ALUMINUM_DENSITY_KG_M3`. -/
def ALUMINUM_DENSITY_KG_M3 : ℚ := 2700

/-- `_treatment_to_finish`: readable finish name for a treatment code
(`mapping.get(treatment, treatment)`). -/
def treatment_to_finish (treatment : String) : String :=
  if treatment = "none" then "Sem acabamento"
  else if treatment = "anodizing_natural" then "Anodização natural"
  else if treatment = "anodizing_colored" then "Anodização colorida"
  else if treatment = "powder_coating_standard" then "Lacagem standard"
  else if treatment = "powder_coating_qualicoat" then "Lacagem Qualicoat"
  else if treatment = "powder_coating_seaside" then "Lacagem Seaside"
  else treatment

/-- The `treatment_rates` table of `_calculate_line_costs`
(`treatment_rates.get(surface_treatment, p.powder_coating_standard_eur_m2)`). -/
def treatment_rate (p : PricingParameters) (treatment : String) : ℚ :=
  if treatment = "anodizing_natural" then p.anodizing_natural_eur_m2
  else if treatment = "anodizing_colored" then p.anodizing_colored_eur_m2
  else if treatment = "powder_coating_standard" then p.powder_coating_standard_eur_m2
  else if treatment = "powder_coating_qualicoat" then p.powder_coating_qualicoat_eur_m2
  else if treatment = "powder_coating_seaside" then p.powder_coating_seaside_eur_m2
  else if treatment = "none" then 0
  else p.powder_coating_standard_eur_m2

/-- `_try_calculate_from_cost_db` after a successful designation lookup:
all five cost components come from the catalog entry, scaled by the length
(in metres, defaulting to 1 m when no length is known) and the quantity.
The formula path is not consulted. -/
def calc_from_cost_db (sp : SteelProfile) (line : BudgetLineItem) : BudgetLineItem :=
  let length_m : ℚ := if line.length_mm > 0 then line.length_mm / 1000 else 1
  let cost_data := steel_calculate_cost sp length_m
  let qty : ℤ := max 1 line.quantity
  { line with
    weight_kg := cost_data.weight_kg
    raw_material_cost := cost_data.cost_material * qty
    transformation_cost := cost_data.cost_fabrication * qty
    surface_treatment_cost := cost_data.cost_painting * qty
    labor_cost := (cost_data.cost_assembly + cost_data.cost_lifting) * qty
    accessories_cost := (cost_data.cost_consumables + cost_data.cost_transport) * qty
    unit_cost := cost_data.total_cost
    total_cost := cost_data.total_cost * qty
    notes := "Custos FLYSTEEL: " ++ sp.designation }

/-- The weight-fallback chain at the start of the formula path of
`_calculate_line_costs` (source lines 827-846): area-based volume with
`max(length, 1000)`, then thickness-squared cross-section, then the fixed
0.5 kg/m linear rate (which also overwrites the perimeter estimate), then
the 1 m / 0.5 kg stand-in (which also overwrites length and perimeter). -/
def compute_weight_fallback (line : BudgetLineItem) : BudgetLineItem :=
  if line.weight_kg ≤ 0 ∧ line.area_mm2 > 0 then
    let thickness := py_or_opt line.thickness_mm 2
    let volume_mm3 := line.perimeter_mm * thickness * max line.length_mm 1000
    { line with weight_kg := volume_mm3 / 1000000000 * ALUMINUM_DENSITY_KG_M3 }
  else if line.weight_kg ≤ 0 ∧ line.perimeter_mm > 0 then
    let thickness := py_or_opt line.thickness_mm 2
    let volume_mm3 := line.perimeter_mm * thickness * thickness
    { line with weight_kg := volume_mm3 / 1000000000 * ALUMINUM_DENSITY_KG_M3 }
  else if line.weight_kg ≤ 0 ∧ line.length_mm > 0 then
    { line with
      weight_kg := line.length_mm / 1000 * (1/2)
      perimeter_mm := line.length_mm * (1/10) }
  else if line.weight_kg ≤ 0 then
    { line with weight_kg := 1/2, length_mm := 1000, perimeter_mm := 100 }
  else line

/-- The formula path of `_calculate_line_costs` (used when no cost-database
match exists): weight fallback, then the five formula cost components and
the totals. -/
def formula_line_costs (p : PricingParameters) (treatment : String)
    (line0 : BudgetLineItem) : BudgetLineItem :=
  let effective_lme := p.lme_price_usd_kg * (1 + p.lme_hedging_buffer_pct / 100)
  let material_price_kg := (effective_lme + p.billet_premium_usd_kg) / p.eur_to_usd
  let line := compute_weight_fallback line0
  let raw_material_cost := line.weight_kg * material_price_kg * line.quantity
  let extrusion_rate := (3/2) * line.complexity_score
  let transformation_cost := line.weight_kg * extrusion_rate * line.quantity
  let surface_area_m2 := line.perimeter_mm * max line.length_mm 1000 / 1000000
  let surface_treatment_cost := surface_area_m2 * treatment_rate p treatment * line.quantity
  let cutting_time := p.cutting_time_mins
  let machining_time := (line.holes_count : ℚ) * p.machining_time_per_hole_mins
  let complexity_time := (line.complexity_score - 1) * 5
  let assembly_time := p.assembly_time_per_component_mins
  let total_labor_mins :=
    (cutting_time + machining_time + complexity_time + assembly_time) * line.quantity
  let labor_cost := total_labor_mins / 60 * p.labor_rate_eur_hr
  let accessories_cost := raw_material_cost * (8/100)
  let unit_cost :=
    (raw_material_cost + transformation_cost + surface_treatment_cost +
      labor_cost + accessories_cost) / ((max line.quantity 1 : ℤ) : ℚ)
  { line with
    raw_material_cost := raw_material_cost
    transformation_cost := transformation_cost
    surface_treatment_cost := surface_treatment_cost
    labor_cost := labor_cost
    accessories_cost := accessories_cost
    unit_cost := unit_cost
    total_cost := unit_cost * line.quantity }

/-- `_calculate_line_costs`: the cost-database attempt short-circuits the
formula path (`HAS_COST_DB` is true in this deployment, since
`cost_database.py` sits next to `budget_calculator.py`). -/
def calculate_line_costs (env : RegexEnv) (p : PricingParameters)
    (treatment : String) (line : BudgetLineItem) : BudgetLineItem :=
  match env.db_lookup line.description line.reference (line.profile_id.getD "") with
  | some sp => calc_from_cost_db sp line
  | none => formula_line_costs p treatment line

/-- The quantity / reference / description resolution of the
`calculate_budget` loop (source lines 598-615): geometry profile first,
then block aggregate, then PDF item (whose quantity goes through Python
`int()` and may raise), and otherwise `continue` (`none`). -/
def resolve_qrd (c : Correlation) : Option (Except String (ℤ × String × String)) :=
  match c.dxf_profile with
  | some dp =>
      some (.ok (rat_trunc (dp.quantity.getD 1),
        py_or_str dp.layer dp.profile_id,
        (dp.entity_type.getD "Perfil") ++ " - " ++ dp.layer))
  | none =>
      match c.material_quantity with
      | some mq =>
          some (.ok (rat_trunc (mq.quantity.getD 1),
            mq.profile_reference,
            mq.description.getD "Bloco DXF"))
      | none =>
          match c.pdf_item with
          | some it =>
              some ((py_int (it.quantity.getD (.num 1))).map
                (fun q => (q, it.reference, it.description)))
          | none => none

/-- The geometry transfer of the `calculate_budget` loop (source lines
632-649): DXF profile geometry, else block-aggregate measures. -/
def geometry_from_sources (c : Correlation) (line : BudgetLineItem) : BudgetLineItem :=
  match c.dxf_profile with
  | some dp =>
      { line with
        profile_id := some dp.profile_id
        perimeter_mm := dp.perimeter_mm
        area_mm2 := dp.area_mm2
        length_mm := py_or_q dp.length_mm (max dp.bbox_width dp.bbox_height)
        weight_kg := dp.weight_kg
        complexity_score := dp.complexity_score.getD 1
        entity_type := dp.entity_type.getD ""
        holes_count := (dp.features.filter (fun f => f == some "hole")).length }
  | none =>
      match c.material_quantity with
      | some mq =>
          { line with
            perimeter_mm := mq.unit_length_mm
            area_mm2 := mq.unit_area_mm2
            length_mm := mq.unit_length_mm }
      | none => line

/-- Source lines 651-653: take the PDF length when the line still has
none. -/
def fill_pdf_length (c : Correlation) (line : BudgetLineItem) : BudgetLineItem :=
  match c.pdf_item with
  | some it => if line.length_mm = 0 then { line with length_mm := it.length_mm.getD 0 } else line
  | none => line

/-- The geometry transfer of the `calculate_budget` loop (source lines
632-653). -/
def apply_geometry (c : Correlation) (line : BudgetLineItem) : BudgetLineItem :=
  fill_pdf_length c (geometry_from_sources c line)

/-- One iteration of the `calculate_budget` loop for one correlation:
`none` models `continue`, an error models the Python exception escaping
the loop. -/
def process_correlation (env : RegexEnv) (p : PricingParameters) (treatment : String)
    (line_id : ℤ) (c : Correlation) : Except String (Option BudgetLineItem) :=
  match resolve_qrd c with
  | none => .ok none
  | some (.error e) => .error e
  | some (.ok (q, reference, description)) =>
      let specs := c.specifications.getD {}
      let line : BudgetLineItem :=
        { line_id := line_id
          reference := reference
          description := description
          quantity := max 1 q
          quantity_source := c.quantity_source
          specs_source :=
            if c.pdf_item.isSome ∧ c.dxf_profile.isSome then "both"
            else if c.dxf_profile.isSome then "dxf" else "pdf"
          correlation_confidence := c.correlation_confidence
          correlation_method := c.correlation_method
          material := specs.material
          finish :=
            match specs.finish with
            | some f => if f = "" then some (treatment_to_finish treatment) else some f
            | none => some (treatment_to_finish treatment)
          thickness_mm := specs.thickness_mm }
      let line := apply_geometry c line
      .ok (some (calculate_line_costs env p treatment line))

/-- The `calculate_budget` loop over all correlations.  `line_id` counts
every correlation (it is incremented before the `continue` check), skipped
correlations add no line, and a raised exception aborts the whole run. -/
def run_lines (env : RegexEnv) (p : PricingParameters) (treatment : String) :
    List Correlation → ℤ → Except String (List BudgetLineItem)
  | [], _ => .ok []
  | c :: rest, line_id =>
      match process_correlation env p treatment (line_id + 1) c with
      | .error e => .error e
      | .ok none => run_lines env p treatment rest (line_id + 1)
      | .ok (some line) =>
          (run_lines env p treatment rest (line_id + 1)).map (line :: ·)

/-- `_calculate_summary`: aggregation of all line items into totals, the
waste factor (clamped above at 20), overhead, subtotal, margin and final
quote. -/
def calculate_summary (p : PricingParameters) (project_name : String)
    (has_dxf has_pdf : Bool) (items : List BudgetLineItem) : BudgetSummary :=
  let raw_material_total := (items.map (·.raw_material_cost)).sum
  let transformation_total := (items.map (·.transformation_cost)).sum
  let surface_treatment_total := (items.map (·.surface_treatment_cost)).sum
  let labor_total := (items.map (·.labor_cost)).sum
  let accessories_total := (items.map (·.accessories_cost)).sum
  let average_complexity : ℚ :=
    if items ≠ [] then (items.map (·.complexity_score)).sum / (items.length : ℚ) else 0
  let waste_pct :=
    p.base_waste_factor_pct + (average_complexity - 1) * p.complexity_waste_factor_pct
  let waste_percentage_applied := min waste_pct 20
  let waste_cost := raw_material_total * (waste_percentage_applied / 100)
  let direct_costs := raw_material_total + transformation_total +
    surface_treatment_total + labor_total + accessories_total + waste_cost
  let overhead_cost := direct_costs * (p.overhead_factor_pct / 100)
  let subtotal := direct_costs + overhead_cost
  let profit_margin := subtotal * (p.profit_margin_pct / 100)
  { project_name := project_name
    has_dxf := has_dxf
    has_pdf := has_pdf
    dxf_files_count := if has_dxf then 1 else 0
    pdf_files_count := if has_pdf then 1 else 0
    total_profiles := items.length
    total_quantity := (items.map (·.quantity)).sum
    total_weight_kg := (items.map (fun i => i.weight_kg * (i.quantity : ℚ))).sum
    total_length_mm := (items.map (fun i => i.length_mm * (i.quantity : ℚ))).sum
    raw_material_total := raw_material_total
    transformation_total := transformation_total
    surface_treatment_total := surface_treatment_total
    labor_total := labor_total
    accessories_total := accessories_total
    waste_cost := waste_cost
    overhead_cost := overhead_cost
    subtotal := subtotal
    profit_margin := profit_margin
    total_quote := subtotal + profit_margin
    waste_percentage_applied := waste_percentage_applied
    average_complexity := average_complexity
    estimated_production_hours := labor_total / p.labor_rate_eur_hr }

/-- The dict returned by `calculate_budget` (the `parameters` echo is
`self.params`). -/
structure BudgetOutput where
  success : Bool := true
  line_items : List BudgetLineItem := []
  summary : BudgetSummary := {}
  parameters : PricingParameters := {}
  correlation_log : List LogEntry := []
  dxf_used : Bool := false
  pdf_used : Bool := false
  quantity_source : String := ""
deriving DecidableEq

/-- `calculate_budget`: correlation, per-line pricing, summary.  `log0` is
the content of `self.correlation_log` when the call starts (`[]` for a
fresh `BudgetCalculator`); the second component of the result is its
content when the call ends, which the output echoes.  An `Except.error`
models a Python exception escaping `calculate_budget`. -/
def calculate_budget (env : RegexEnv) (p : PricingParameters) (log0 : List LogEntry)
    (dxf : DxfData) (pdf : PdfData) (treatment : String) (project_name : String) :
    Except String BudgetOutput × List LogEntry :=
  let has_dxf := dxf.success && !dxf.profiles.isEmpty
  let has_pdf := pdf.success
  let corrs := (correlate_data env dxf pdf).1
  let log := log0 ++ (correlate_data env dxf pdf).2
  match run_lines env p treatment corrs 0 with
  | .error e => (.error e, log)
  | .ok items =>
      (.ok
        { success := true
          line_items := items
          summary := calculate_summary p project_name has_dxf has_pdf items
          parameters := p
          correlation_log := log
          dxf_used := has_dxf
          pdf_used := has_pdf
          quantity_source := if has_dxf then "dxf" else "pdf" },
        log)

/-- Projection used by concrete counterexamples: the waste percentage of a
run that succeeded, `0` otherwise. -/
def budget_waste : Except String BudgetOutput × List LogEntry → ℚ
  | (.ok out, _) => out.summary.waste_percentage_applied
  | (.error _, _) => 0

/-- Projection used by concrete witnesses: the line items of a run that
succeeded, `[]` otherwise. -/
def budget_lines : Except String BudgetOutput × List LogEntry → List BudgetLineItem
  | (.ok out, _) => out.line_items
  | (.error _, _) => []

/-- Pricing a line never touches its identity or provenance fields: both
the catalog path and the formula path only write geometry estimates and
costs. -/
lemma compute_weight_fallback_preserves (l : BudgetLineItem) :
    (compute_weight_fallback l).quantity = l.quantity ∧
    (compute_weight_fallback l).quantity_source = l.quantity_source ∧
    (compute_weight_fallback l).correlation_method = l.correlation_method ∧
    (compute_weight_fallback l).correlation_confidence = l.correlation_confidence := by
  unfold compute_weight_fallback
  repeat' split
  all_goals exact ⟨rfl, rfl, rfl, rfl⟩

/-- Pricing a line never touches its identity or provenance fields: both
the catalog path and the formula path only write geometry estimates and
costs. -/
lemma calculate_line_costs_preserves (env : RegexEnv) (p : PricingParameters)
    (t : String) (l : BudgetLineItem) :
    (calculate_line_costs env p t l).quantity = l.quantity ∧
    (calculate_line_costs env p t l).quantity_source = l.quantity_source ∧
    (calculate_line_costs env p t l).correlation_method = l.correlation_method ∧
    (calculate_line_costs env p t l).correlation_confidence = l.correlation_confidence := by
  unfold calculate_line_costs
  split
  · exact ⟨rfl, rfl, rfl, rfl⟩
  · exact compute_weight_fallback_preserves l

/-- Transferring geometry onto a line never touches its identity or
provenance fields. -/
lemma apply_geometry_preserves (c : Correlation) (l : BudgetLineItem) :
    (apply_geometry c l).quantity = l.quantity ∧
    (apply_geometry c l).quantity_source = l.quantity_source ∧
    (apply_geometry c l).correlation_method = l.correlation_method ∧
    (apply_geometry c l).correlation_confidence = l.correlation_confidence := by
  have h1 : (geometry_from_sources c l).quantity = l.quantity ∧
      (geometry_from_sources c l).quantity_source = l.quantity_source ∧
      (geometry_from_sources c l).correlation_method = l.correlation_method ∧
      (geometry_from_sources c l).correlation_confidence = l.correlation_confidence := by
    unfold geometry_from_sources
    repeat' split
    all_goals exact ⟨rfl, rfl, rfl, rfl⟩
  have h2 : ∀ m : BudgetLineItem, (fill_pdf_length c m).quantity = m.quantity ∧
      (fill_pdf_length c m).quantity_source = m.quantity_source ∧
      (fill_pdf_length c m).correlation_method = m.correlation_method ∧
      (fill_pdf_length c m).correlation_confidence = m.correlation_confidence := by
    intro m
    unfold fill_pdf_length
    repeat' split
    all_goals exact ⟨rfl, rfl, rfl, rfl⟩
  obtain ⟨a1, a2, a3, a4⟩ := h1
  obtain ⟨b1, b2, b3, b4⟩ := h2 (geometry_from_sources c l)
  exact ⟨by rw [apply_geometry, b1, a1], by rw [apply_geometry, b2, a2],
    by rw [apply_geometry, b3, a3], by rw [apply_geometry, b4, a4]⟩

/-- Any line emitted for a correlation carries that correlation's
`quantity_source`, method and confidence, and a quantity of at least 1. -/
lemma process_correlation_fields (env : RegexEnv) (p : PricingParameters)
    (t : String) (line_id : ℤ) (c : Correlation) (l : BudgetLineItem)
    (h : process_correlation env p t line_id c = .ok (some l)) :
    l.quantity_source = c.quantity_source ∧ 1 ≤ l.quantity ∧
    l.correlation_method = c.correlation_method ∧
    l.correlation_confidence = c.correlation_confidence := by
  unfold process_correlation at h
  cases hr : resolve_qrd c with
  | none => rw [hr] at h; exact absurd h (by simp)
  | some r =>
    cases r with
    | error e => rw [hr] at h; exact absurd h (by simp)
    | ok v =>
      obtain ⟨q, ref, desc⟩ := v
      rw [hr] at h
      simp only [Except.ok.injEq, Option.some.injEq] at h
      subst h
      obtain ⟨e1, e2, e3, e4⟩ := calculate_line_costs_preserves env p t
        (apply_geometry c
          { line_id := line_id, reference := ref, description := desc,
            quantity := max 1 q,
            quantity_source := c.quantity_source,
            specs_source :=
              if c.pdf_item.isSome ∧ c.dxf_profile.isSome then "both"
              else if c.dxf_profile.isSome then "dxf" else "pdf",
            correlation_confidence := c.correlation_confidence,
            correlation_method := c.correlation_method,
            material := (c.specifications.getD {}).material,
            finish :=
              match (c.specifications.getD {}).finish with
              | some f => if f = "" then some (treatment_to_finish t) else some f
              | none => some (treatment_to_finish t),
            thickness_mm := (c.specifications.getD {}).thickness_mm })
      obtain ⟨g1, g2, g3, g4⟩ := apply_geometry_preserves c
        { line_id := line_id, reference := ref, description := desc,
          quantity := max 1 q,
          quantity_source := c.quantity_source,
          specs_source :=
            if c.pdf_item.isSome ∧ c.dxf_profile.isSome then "both"
            else if c.dxf_profile.isSome then "dxf" else "pdf",
          correlation_confidence := c.correlation_confidence,
          correlation_method := c.correlation_method,
          material := (c.specifications.getD {}).material,
          finish :=
            match (c.specifications.getD {}).finish with
            | some f => if f = "" then some (treatment_to_finish t) else some f
            | none => some (treatment_to_finish t),
          thickness_mm := (c.specifications.getD {}).thickness_mm }
      refine ⟨?_, ?_, ?_, ?_⟩
      · rw [e2, g2]
      · rw [e1, g1]; exact le_max_left 1 q
      · rw [e3, g3]
      · rw [e4, g4]

/-- Every line produced by the pricing loop comes from one of the
processed correlations. -/
lemma run_lines_mem (env : RegexEnv) (p : PricingParameters) (t : String) :
    ∀ (corrs : List Correlation) (n : ℤ) (items : List BudgetLineItem),
      run_lines env p t corrs n = .ok items →
      ∀ l ∈ items, ∃ c ∈ corrs, ∃ m, process_correlation env p t m c = .ok (some l) := by
  intro corrs
  induction corrs with
  | nil =>
    intro n items h l hl
    unfold run_lines at h
    simp only [Except.ok.injEq] at h
    subst h
    simp at hl
  | cons c rest ih =>
    intro n items h l hl
    unfold run_lines at h
    cases hp : process_correlation env p t (n + 1) c with
    | error e => rw [hp] at h; exact absurd h (by simp)
    | ok o =>
      cases o with
      | none =>
        rw [hp] at h
        obtain ⟨c2, hc2, m, hm⟩ := ih (n + 1) items h l hl
        exact ⟨c2, List.mem_cons_of_mem _ hc2, m, hm⟩
      | some l0 =>
        rw [hp] at h
        cases hr : run_lines env p t rest (n + 1) with
        | error e => rw [hr] at h; exact absurd h (by simp [Except.map])
        | ok items2 =>
          rw [hr] at h
          simp only [Except.map, Except.ok.injEq] at h
          subst h
          rcases List.mem_cons.mp hl with h1 | h2
          · subst h1
            exact ⟨c, List.mem_cons_self c rest, n + 1, hp⟩
          · obtain ⟨c2, hc2, m, hm⟩ := ih (n + 1) items2 hr l h2
            exact ⟨c2, List.mem_cons_of_mem _ hc2, m, hm⟩

/-- When the geometry payload is used, every correlation `correlate_data`
returns carries `quantity_source = "dxf"`. -/
lemma correlate_data_dxf_sources (env : RegexEnv) (dxf : DxfData) (pdf : PdfData)
    (h1 : dxf.success = true) (h2 : dxf.profiles ≠ []) :
    ∀ c ∈ (correlate_data env dxf pdf).1, c.quantity_source = "dxf" := by
  intro c hc
  obtain ⟨p0, ps, hps⟩ := List.exists_cons_of_ne_nil h2
  have hcorrs : (correlate_data env dxf pdf).1 =
      correlate_profile_with_pdf p0 (build_by_reference pdf.bom_items)
          pdf.bom_items pdf.constraints ::
        (ps.map (fun p => correlate_profile_with_pdf p (build_by_reference pdf.bom_items)
            pdf.bom_items pdf.constraints) ++
          dxf.material_quantities.filterMap
            (fun mq =>
              if mq.source = some "block_count" then
                some (create_material_correlation mq (build_by_reference pdf.bom_items)
                  pdf.constraints)
              else none)) := by
    simp [correlate_data, h1, hps]
  rw [hcorrs] at hc
  rcases List.mem_cons.mp hc with h0 | hrest
  · subst h0; rfl
  · rcases List.mem_append.mp hrest with hm | hm
    · obtain ⟨pr, _, hpr⟩ := List.mem_map.mp hm
      rw [← hpr]
      rfl
    · obtain ⟨mq, _, hmq⟩ := List.mem_filterMap.mp hm
      by_cases hsrc : mq.source = some "block_count"
      · rw [if_pos hsrc] at hmq
        cases hmq
        rfl
      · rw [if_neg hsrc] at hmq
        cases hmq

/-- Inversion of a successful `calculate_budget` run. -/
lemma calculate_budget_ok (env : RegexEnv) (p : PricingParameters) (log0 : List LogEntry)
    (dxf : DxfData) (pdf : PdfData) (t pn : String) (out : BudgetOutput)
    (hout : (calculate_budget env p log0 dxf pdf t pn).1 = .ok out) :
    run_lines env p t (correlate_data env dxf pdf).1 0 = .ok out.line_items ∧
    out.summary = calculate_summary p pn (dxf.success && !dxf.profiles.isEmpty)
      pdf.success out.line_items ∧
    out.correlation_log = log0 ++ (correlate_data env dxf pdf).2 ∧
    out.parameters = p := by
  simp only [calculate_budget] at hout
  cases hr : run_lines env p t (correlate_data env dxf pdf).1 0 with
  | error e =>
    rw [hr] at hout
    exact absurd hout (by simp)
  | ok items =>
    rw [hr] at hout
    simp only [Except.ok.injEq] at hout
    subst hout
    exact ⟨rfl, rfl, rfl, rfl⟩

/-- C1: whenever the geometry payload has its success flag set and at
least one profile record, every correlation record produced by
`correlate_data` (profile-derived and block-derived alike) carries
`quantity_source = "dxf"`, and hence so does every budget line of the
resulting run — independent of any PDF match and of the correlation
confidence. -/
theorem C1_dxf_quantity_prevalence (env : RegexEnv) (p : PricingParameters)
    (log0 : List LogEntry) (dxf : DxfData) (pdf : PdfData) (t pn : String)
    (h1 : dxf.success = true) (h2 : dxf.profiles ≠ []) :
    (∀ c ∈ (correlate_data env dxf pdf).1, c.quantity_source = "dxf") ∧
    (∀ out : BudgetOutput, (calculate_budget env p log0 dxf pdf t pn).1 = .ok out →
      ∀ l ∈ out.line_items, l.quantity_source = "dxf") := by
  refine ⟨correlate_data_dxf_sources env dxf pdf h1 h2, ?_⟩
  intro out hout l hl
  obtain ⟨hr, -, -, -⟩ := calculate_budget_ok env p log0 dxf pdf t pn out hout
  obtain ⟨c, hc, m, hm⟩ := run_lines_mem env p t _ 0 out.line_items hr l hl
  rw [(process_correlation_fields env p t m c l hm).1]
  exact correlate_data_dxf_sources env dxf pdf h1 h2 c hc

/-- Environment whose regex sub-steps match nothing: no designation in the
line text matches the cost database, and no dimension string parses. -/
def env_none : RegexEnv :=
  { db_lookup := fun _ _ _ => none, parse_dimension := fun _ => none }

/-- Concrete geometry payload for the C1 witness: one profile and one
block aggregate. -/
def c1_dxf : DxfData :=
  { success := true
    profiles := [{ profile_id := "P1", layer := "L1", quantity := some 2 }]
    material_quantities :=
      [{ source := some "block_count", profile_reference := "B1", quantity := some 3 }] }

/-- Concrete specification payload for the C1 witness. -/
def c1_pdf : PdfData :=
  { success := true
    bom_items := [{ reference := "L1", description := "Perfil em T", quantity := some (.num 5) }] }

/-- Witness for C1 at a concrete input with both geometry and
specification data. -/
theorem C1_dxf_quantity_prevalence_witness :
    ((correlate_data env_none c1_dxf c1_pdf).1.all
      (fun c => c.quantity_source == "dxf")) = true ∧
    ((budget_lines (calculate_budget env_none {} [] c1_dxf c1_pdf
        "powder_coating_standard" "Obra")).all
      (fun l => l.quantity_source == "dxf")) = true := by
  have h12 : c1_dxf.success = true ∧ c1_dxf.profiles ≠ [] := by
    constructor
    · rfl
    · simp [c1_dxf]
  constructor
  · refine List.all_eq_true.mpr (fun c hc => ?_)
    rw [(C1_dxf_quantity_prevalence env_none {} [] c1_dxf c1_pdf
      "powder_coating_standard" "Obra" h12.1 h12.2).1 c hc]
    decide
  · rcases hres : calculate_budget env_none {} [] c1_dxf c1_pdf
        "powder_coating_standard" "Obra" with ⟨r, lg⟩
    cases r with
    | error e => simp [budget_lines]
    | ok out =>
      have hfst : (calculate_budget env_none {} [] c1_dxf c1_pdf
          "powder_coating_standard" "Obra").1 = .ok out := by rw [hres]
      refine List.all_eq_true.mpr (fun l hl => ?_)
      have hl2 : l ∈ out.line_items := by simpa [budget_lines, hres] using hl
      rw [(C1_dxf_quantity_prevalence env_none {} [] c1_dxf c1_pdf
        "powder_coating_standard" "Obra" h12.1 h12.2).2 out hfst l hl2]
      decide

/-- C2: every budget line stores an integral quantity of at least 1, for
every input (zero, negative and fractional raw quantities included). -/
theorem C2_quantity_floor (env : RegexEnv) (p : PricingParameters)
    (log0 : List LogEntry) (dxf : DxfData) (pdf : PdfData) (t pn : String)
    (out : BudgetOutput) (hout : (calculate_budget env p log0 dxf pdf t pn).1 = .ok out) :
    ∀ l ∈ out.line_items, 1 ≤ l.quantity := by
  intro l hl
  obtain ⟨hr, -, -, -⟩ := calculate_budget_ok env p log0 dxf pdf t pn out hout
  obtain ⟨c, -, m, hm⟩ := run_lines_mem env p t _ 0 out.line_items hr l hl
  exact (process_correlation_fields env p t m c l hm).2.1

/-- Concrete geometry payload for the C2 witness: a zero, a negative
fractional and a fractional raw quantity. -/
def c2_dxf : DxfData :=
  { success := true
    profiles := [{ profile_id := "P1", layer := "L1", quantity := some 0 },
      { profile_id := "P2", layer := "L2", quantity := some (-5/2) },
      { profile_id := "P3", layer := "L3", quantity := some (7/2) }] }

/-- Witness for C2 at a concrete input with zero, negative and fractional
quantities. -/
theorem C2_quantity_floor_witness :
    ((budget_lines (calculate_budget env_none {} [] c2_dxf {} "none" "Obra")).all
      (fun l => decide (1 ≤ l.quantity))) = true := by
  rcases hres : calculate_budget env_none {} [] c2_dxf {} "none" "Obra" with ⟨r, lg⟩
  cases r with
  | error e => simp [budget_lines]
  | ok out =>
    have hfst : (calculate_budget env_none {} [] c2_dxf {} "none" "Obra").1 = .ok out := by
      rw [hres]
    refine List.all_eq_true.mpr (fun l hl => ?_)
    have hl2 : l ∈ out.line_items := by simpa [budget_lines, hres] using hl
    exact decide_eq_true
      (C2_quantity_floor env_none {} [] c2_dxf {} "none" "Obra" out hfst l hl2)

/-- Projection used by concrete witnesses: the summary of a run that
succeeded, the default summary otherwise. -/
def budget_summary : Except String BudgetOutput × List LogEntry → BudgetSummary
  | (.ok out, _) => out.summary
  | (.error _, _) => {}

/-- C4: in every summary, the overhead cost is the direct-cost sum (five
component totals plus waste) times the overhead percentage, the subtotal
is that direct-cost sum plus the overhead cost, and the final quote is the
subtotal plus the subtotal times the margin percentage. -/
theorem C4_aggregation_identity (env : RegexEnv) (p : PricingParameters)
    (log0 : List LogEntry) (dxf : DxfData) (pdf : PdfData) (t pn : String)
    (out : BudgetOutput) (hout : (calculate_budget env p log0 dxf pdf t pn).1 = .ok out) :
    out.summary.overhead_cost =
      (out.summary.raw_material_total + out.summary.transformation_total +
        out.summary.surface_treatment_total + out.summary.labor_total +
        out.summary.accessories_total + out.summary.waste_cost) *
        (p.overhead_factor_pct / 100) ∧
    out.summary.subtotal =
      out.summary.raw_material_total + out.summary.transformation_total +
        out.summary.surface_treatment_total + out.summary.labor_total +
        out.summary.accessories_total + out.summary.waste_cost +
        out.summary.overhead_cost ∧
    out.summary.total_quote =
      out.summary.subtotal + out.summary.subtotal * (p.profit_margin_pct / 100) := by
  obtain ⟨-, hs, -, -⟩ := calculate_budget_ok env p log0 dxf pdf t pn out hout
  rw [hs]
  dsimp only [calculate_summary]
  exact ⟨rfl, rfl, rfl⟩

/-- Witness for C4 at a concrete input. -/
theorem C4_aggregation_identity_witness :
    (budget_summary (calculate_budget env_none {} [] c1_dxf c1_pdf "none" "Obra")).subtotal =
      (budget_summary (calculate_budget env_none {} [] c1_dxf c1_pdf "none"
        "Obra")).raw_material_total +
      (budget_summary (calculate_budget env_none {} [] c1_dxf c1_pdf "none"
        "Obra")).transformation_total +
      (budget_summary (calculate_budget env_none {} [] c1_dxf c1_pdf "none"
        "Obra")).surface_treatment_total +
      (budget_summary (calculate_budget env_none {} [] c1_dxf c1_pdf "none"
        "Obra")).labor_total +
      (budget_summary (calculate_budget env_none {} [] c1_dxf c1_pdf "none"
        "Obra")).accessories_total +
      (budget_summary (calculate_budget env_none {} [] c1_dxf c1_pdf "none"
        "Obra")).waste_cost +
      (budget_summary (calculate_budget env_none {} [] c1_dxf c1_pdf "none"
        "Obra")).overhead_cost := by
  rcases hres : calculate_budget env_none {} [] c1_dxf c1_pdf "none" "Obra" with ⟨r, lg⟩
  cases r with
  | error e => simp [budget_summary]
  | ok out =>
    have hfst : (calculate_budget env_none {} [] c1_dxf c1_pdf "none" "Obra").1 = .ok out := by
      rw [hres]
    have hid := (C4_aggregation_identity env_none {} [] c1_dxf c1_pdf "none" "Obra"
      out hfst).2.1
    simpa [budget_summary, hres] using hid

/-- Parameters for the C5 counterexample: zero base waste, the default 4 %
complexity waste factor. -/
def c5_params : PricingParameters := { base_waste_factor_pct := 0 }

/-- Geometry payload for the C5 counterexample: one profile of complexity
0.5, sent through the normal DXF-primary path. -/
def c5_dxf : DxfData :=
  { success := true
    profiles := [{ profile_id := "P1", layer := "L1", complexity_score := some (1/2) }] }

/-- Counterexample to C5 as stated: a run in which the applied waste
percentage is negative (-2), because the source clamps the waste factor
only from above (`min(waste_pct, 20.0)`) and never from below. -/
theorem C5_waste_clamp_counterexample :
    budget_waste (calculate_budget env_none c5_params [] c5_dxf {} "none" "Obra") < 0 := by
  norm_num [budget_waste, calculate_budget, correlate_data, correlate_profile_with_pdf,
    build_by_reference, dict_get, extract_specifications, constraints_of_type,
    constraint_types_in_order, opt_str_falsy, run_lines, process_correlation, resolve_qrd,
    rat_trunc, apply_geometry, geometry_from_sources, fill_pdf_length, treatment_to_finish,
    calculate_line_costs, calc_from_cost_db, formula_line_costs, compute_weight_fallback,
    treatment_rate, calculate_summary, env_none, c5_dxf, c5_params, py_or_str, py_or_q,
    py_or_opt, py_upper, py_upper_char, py_in, py_in_chars, py_strip, ALUMINUM_DENSITY_KG_M3,
    Except.map, min_def]

/-- C5 amended: the applied waste percentage is
`min(base + (avg_complexity - 1) * complexity_factor, 20)`; it is bounded
above by 20, and bounded below by 0 only when the unclamped value is
non-negative (the source applies no lower clamp). -/
theorem C5_waste_clamp_amended (env : RegexEnv) (p : PricingParameters)
    (log0 : List LogEntry) (dxf : DxfData) (pdf : PdfData) (t pn : String)
    (out : BudgetOutput) (hout : (calculate_budget env p log0 dxf pdf t pn).1 = .ok out) :
    out.summary.waste_percentage_applied =
      min (p.base_waste_factor_pct + (out.summary.average_complexity - 1) *
        p.complexity_waste_factor_pct) 20 ∧
    out.summary.waste_percentage_applied ≤ 20 ∧
    (0 ≤ p.base_waste_factor_pct + (out.summary.average_complexity - 1) *
        p.complexity_waste_factor_pct →
      0 ≤ out.summary.waste_percentage_applied) := by
  obtain ⟨-, hs, -, -⟩ := calculate_budget_ok env p log0 dxf pdf t pn out hout
  rw [hs]
  dsimp only [calculate_summary]
  exact ⟨rfl, min_le_right _ _, fun h => le_min h (by norm_num)⟩

/-- Witness for the amended C5 at a concrete input. -/
theorem C5_waste_clamp_amended_witness :
    (budget_summary (calculate_budget env_none {} [] c1_dxf c1_pdf "none"
      "Obra")).waste_percentage_applied ≤ 20 := by
  rcases hres : calculate_budget env_none {} [] c1_dxf c1_pdf "none" "Obra" with ⟨r, lg⟩
  cases r with
  | error e => simp [budget_summary]
  | ok out =>
    have hfst : (calculate_budget env_none {} [] c1_dxf c1_pdf "none" "Obra").1 = .ok out := by
      rw [hres]
    have hb := (C5_waste_clamp_amended env_none {} [] c1_dxf c1_pdf "none" "Obra"
      out hfst).2.1
    simpa [budget_summary, hres] using hb

/-- The pricing-parameter fields used by the line pricer, all
non-negative. -/
def params_nonneg (p : PricingParameters) : Prop :=
  0 ≤ p.lme_price_usd_kg ∧ 0 ≤ p.lme_hedging_buffer_pct ∧
  0 ≤ p.billet_premium_usd_kg ∧ 0 ≤ p.anodizing_natural_eur_m2 ∧
  0 ≤ p.anodizing_colored_eur_m2 ∧ 0 ≤ p.powder_coating_standard_eur_m2 ∧
  0 ≤ p.powder_coating_qualicoat_eur_m2 ∧ 0 ≤ p.powder_coating_seaside_eur_m2 ∧
  0 ≤ p.labor_rate_eur_hr ∧ 0 ≤ p.cutting_time_mins ∧
  0 ≤ p.machining_time_per_hole_mins ∧ 0 ≤ p.assembly_time_per_component_mins ∧
  0 ≤ p.eur_to_usd

/-- A cost-database entry with non-negative rates and measures (true of
every entry hard-coded in `cost_database.py`). -/
def steel_profile_nonneg (sp : SteelProfile) : Prop :=
  0 ≤ sp.weight_per_meter ∧ 0 ≤ sp.area_per_meter ∧ 0 ≤ sp.price_material ∧
  0 ≤ sp.price_fabrication ∧ 0 ≤ sp.price_assembly ∧ 0 ≤ sp.price_painting ∧
  0 ≤ sp.price_lifting ∧ 0 ≤ sp.price_consumables ∧ 0 ≤ sp.price_transport

lemma treatment_rate_nonneg (p : PricingParameters) (t : String)
    (hp : params_nonneg p) : 0 ≤ treatment_rate p t := by
  obtain ⟨-, -, -, h4, h5, h6, h7, h8, -⟩ := hp
  unfold treatment_rate
  repeat' split
  all_goals first | assumption | norm_num

lemma py_or_opt_nonneg (a : Option ℚ) (d : ℚ) (hd : 0 ≤ d)
    (ha : ∀ v, a = some v → 0 ≤ v) : 0 ≤ py_or_opt a d := by
  unfold py_or_opt
  cases a with
  | none => exact hd
  | some v =>
    by_cases hv : v = 0
    · simp [hv, hd]
    · simp [hv]
      exact ha v rfl

/-- The weight-fallback chain keeps weight and perimeter non-negative on
non-negative inputs and never touches quantity, complexity or hole
count. -/
lemma compute_weight_fallback_props (l : BudgetLineItem)
    (hper : 0 ≤ l.perimeter_mm) (hlen : 0 ≤ l.length_mm) (hw : 0 ≤ l.weight_kg)
    (hth : ∀ v, l.thickness_mm = some v → 0 ≤ v) :
    0 ≤ (compute_weight_fallback l).weight_kg ∧
    0 ≤ (compute_weight_fallback l).perimeter_mm ∧
    (compute_weight_fallback l).complexity_score = l.complexity_score ∧
    (compute_weight_fallback l).quantity = l.quantity ∧
    (compute_weight_fallback l).holes_count = l.holes_count := by
  have hth2 : 0 ≤ py_or_opt l.thickness_mm 2 := py_or_opt_nonneg _ _ (by norm_num) hth
  have hmax : (0 : ℚ) ≤ max l.length_mm 1000 :=
    le_trans (by norm_num) (le_max_right l.length_mm 1000)
  unfold compute_weight_fallback
  repeat' split
  · exact ⟨mul_nonneg (div_nonneg (mul_nonneg (mul_nonneg hper hth2) hmax)
      (by norm_num)) (by norm_num [ALUMINUM_DENSITY_KG_M3]), hper, rfl, rfl, rfl⟩
  · exact ⟨mul_nonneg (div_nonneg (mul_nonneg (mul_nonneg hper hth2) hth2)
      (by norm_num)) (by norm_num [ALUMINUM_DENSITY_KG_M3]), hper, rfl, rfl, rfl⟩
  · exact ⟨mul_nonneg (div_nonneg hlen (by norm_num)) (by norm_num),
      mul_nonneg hlen (by norm_num), rfl, rfl, rfl⟩
  · exact ⟨by norm_num, by norm_num, rfl, rfl, rfl⟩
  · exact ⟨hw, hper, rfl, rfl, rfl⟩

/-- Parameters for the C3 counterexample: zero cutting and assembly time,
everything else the source defaults (all non-negative). -/
def c3_params : PricingParameters :=
  { cutting_time_mins := 0, assembly_time_per_component_mins := 0 }

/-- Line for the C3 counterexample: quantity 1, a known area, no
perimeter, and complexity score 0 (non-negative). -/
def c3_line : BudgetLineItem := { quantity := 1, area_mm2 := 1, complexity_score := 0 }

/-- Counterexample to C3 as stated: a line whose geometry measures,
quantity and pricing parameters are all non-negative but whose total cost
is negative, because `(complexity_score - 1) * 5` makes the labor time
negative when the complexity score is below 1. -/
theorem C3_cost_nonneg_counterexample :
    (0 ≤ c3_line.perimeter_mm ∧ 0 ≤ c3_line.area_mm2 ∧ 0 ≤ c3_line.length_mm ∧
      0 ≤ c3_line.weight_kg ∧ 0 ≤ c3_line.complexity_score ∧ 1 ≤ c3_line.quantity ∧
      params_nonneg c3_params) ∧
    (calculate_line_costs env_none c3_params "none" c3_line).total_cost < 0 := by
  constructor
  · norm_num [c3_line, c3_params, params_nonneg]
  · norm_num [calculate_line_costs, env_none, formula_line_costs, compute_weight_fallback,
      treatment_rate, py_or_opt, c3_line, c3_params, ALUMINUM_DENSITY_KG_M3]

/-- C3 amended: after cost calculation, `unit_cost * quantity =
total_cost` exactly (both on the catalog path and on the formula path),
and the total cost is non-negative whenever the geometry measures,
quantities and pricing parameters are non-negative, the catalog rates are
non-negative, and the complexity score is at least 1 (the counterexample
shows 1 cannot be weakened to 0). -/
theorem C3_cost_identity_and_nonneg (env : RegexEnv) (p : PricingParameters)
    (t : String) (line : BudgetLineItem)
    (hq : 1 ≤ line.quantity)
    (hper : 0 ≤ line.perimeter_mm) (harea : 0 ≤ line.area_mm2)
    (hlen : 0 ≤ line.length_mm) (hw : 0 ≤ line.weight_kg)
    (hcx : 1 ≤ line.complexity_score)
    (hth : ∀ v, line.thickness_mm = some v → 0 ≤ v)
    (hp : params_nonneg p)
    (hdb : ∀ sp, env.db_lookup line.description line.reference (line.profile_id.getD "") =
      some sp → steel_profile_nonneg sp) :
    (calculate_line_costs env p t line).unit_cost *
      ((calculate_line_costs env p t line).quantity : ℚ) =
      (calculate_line_costs env p t line).total_cost ∧
    0 ≤ (calculate_line_costs env p t line).total_cost := by
  obtain ⟨hp1, hp2, hp3, hp4, hp5, hp6, hp7, hp8, hp9, hp10, hp11, hp12, hp13⟩ := hp
  unfold calculate_line_costs
  cases hdb2 : env.db_lookup line.description line.reference (line.profile_id.getD "") with
  | some sp =>
    obtain ⟨hs1, hs2, hs3, hs4, hs5, hs6, hs7, hs8, hs9⟩ := hdb sp hdb2
    have hlenm : 0 ≤ (if line.length_mm > 0 then line.length_mm / 1000 else 1) := by
      split
      · exact div_nonneg hlen (by norm_num)
      · norm_num
    have hqmax : (0 : ℚ) ≤ ((max 1 line.quantity : ℤ) : ℚ) := by
      have : (0 : ℤ) ≤ max 1 line.quantity := le_trans (by norm_num) (le_max_left 1 _)
      exact_mod_cast this
    constructor
    · dsimp only [calc_from_cost_db]
      rw [max_eq_right hq]
    · dsimp only [calc_from_cost_db, steel_calculate_cost]
      refine mul_nonneg ?_ hqmax
      have hwkg := mul_nonneg hlenm hs1
      have harm := mul_nonneg hlenm hs2
      refine add_nonneg (add_nonneg (add_nonneg (add_nonneg (add_nonneg
        (add_nonneg (mul_nonneg hwkg hs3) (mul_nonneg hwkg hs4))
        (mul_nonneg hwkg hs5)) (mul_nonneg harm hs6)) (mul_nonneg hwkg hs7))
        (mul_nonneg hwkg hs8)) (mul_nonneg hwkg hs9)
  | none =>
    obtain ⟨hw2, hper2, hcx2, hq2, hh2⟩ := compute_weight_fallback_props line hper hlen hw hth
    constructor
    · rfl
    · dsimp only [formula_line_costs]
      have hqcast : (0 : ℚ) ≤ ((compute_weight_fallback line).quantity : ℚ) := by
        rw [hq2]
        exact_mod_cast le_trans zero_le_one hq
      refine mul_nonneg (div_nonneg ?_ ?_) hqcast
      · have hmp : 0 ≤ (p.lme_price_usd_kg * (1 + p.lme_hedging_buffer_pct / 100) +
            p.billet_premium_usd_kg) / p.eur_to_usd := by
          refine div_nonneg (add_nonneg (mul_nonneg hp1 ?_) hp3) hp13
          have : 0 ≤ p.lme_hedging_buffer_pct / 100 := div_nonneg hp2 (by norm_num)
          linarith
        have hraw : 0 ≤ (compute_weight_fallback line).weight_kg *
            ((p.lme_price_usd_kg * (1 + p.lme_hedging_buffer_pct / 100) +
              p.billet_premium_usd_kg) / p.eur_to_usd) *
            ((compute_weight_fallback line).quantity : ℚ) := by
          rw [hq2]
          exact mul_nonneg (mul_nonneg hw2 hmp) (by exact_mod_cast le_trans zero_le_one hq)
        have hcxw : 0 ≤ (compute_weight_fallback line).complexity_score := by
          rw [hcx2]; linarith
        have htrans : 0 ≤ (compute_weight_fallback line).weight_kg *
            (3 / 2 * (compute_weight_fallback line).complexity_score) *
            ((compute_weight_fallback line).quantity : ℚ) := by
          rw [hq2]
          exact mul_nonneg (mul_nonneg hw2 (mul_nonneg (by norm_num) hcxw))
            (by exact_mod_cast le_trans zero_le_one hq)
        have hmaxlen : (0 : ℚ) ≤ max (compute_weight_fallback line).length_mm 1000 :=
          le_trans (by norm_num) (le_max_right _ 1000)
        have hsurf : 0 ≤ (compute_weight_fallback line).perimeter_mm *
            max (compute_weight_fallback line).length_mm 1000 / 1000000 *
            treatment_rate p t * ((compute_weight_fallback line).quantity : ℚ) := by
          rw [hq2]
          exact mul_nonneg (mul_nonneg (div_nonneg (mul_nonneg hper2 hmaxlen)
            (by norm_num)) (treatment_rate_nonneg p t
              ⟨hp1, hp2, hp3, hp4, hp5, hp6, hp7, hp8, hp9, hp10, hp11, hp12, hp13⟩))
            (by exact_mod_cast le_trans zero_le_one hq)
        have hlabor : 0 ≤ (p.cutting_time_mins +
            ((compute_weight_fallback line).holes_count : ℚ) *
              p.machining_time_per_hole_mins +
            ((compute_weight_fallback line).complexity_score - 1) * 5 +
            p.assembly_time_per_component_mins) *
            ((compute_weight_fallback line).quantity : ℚ) / 60 * p.labor_rate_eur_hr := by
          rw [hq2, hcx2, hh2]
          refine mul_nonneg (div_nonneg (mul_nonneg ?_
            (by exact_mod_cast le_trans zero_le_one hq)) (by norm_num)) hp9
          have h1 : 0 ≤ (line.holes_count : ℚ) * p.machining_time_per_hole_mins :=
            mul_nonneg (by positivity) hp11
          have h2 : 0 ≤ (line.complexity_score - 1) * 5 := by
            have : 0 ≤ line.complexity_score - 1 := by linarith
            linarith
          linarith
        have hacc : 0 ≤ (compute_weight_fallback line).weight_kg *
            ((p.lme_price_usd_kg * (1 + p.lme_hedging_buffer_pct / 100) +
              p.billet_premium_usd_kg) / p.eur_to_usd) *
            ((compute_weight_fallback line).quantity : ℚ) * (8 / 100) :=
          mul_nonneg hraw (by norm_num)
        refine add_nonneg (add_nonneg (add_nonneg (add_nonneg hraw htrans) hsurf)
          hlabor) hacc
      · have : (0 : ℤ) ≤ max (compute_weight_fallback line).quantity 1 :=
          le_trans (by norm_num) (le_max_right _ 1)
        exact_mod_cast this

/-- Line for the C3 amended witness. -/
def c3w_line : BudgetLineItem :=
  { quantity := 1, complexity_score := 1, perimeter_mm := 400, area_mm2 := 1,
    length_mm := 2000 }

/-- Witness for the amended C3 at a concrete input. -/
theorem C3_cost_identity_and_nonneg_witness :
    (calculate_line_costs env_none {} "none" c3w_line).unit_cost *
      ((calculate_line_costs env_none {} "none" c3w_line).quantity : ℚ) =
      (calculate_line_costs env_none {} "none" c3w_line).total_cost ∧
    0 ≤ (calculate_line_costs env_none {} "none" c3w_line).total_cost :=
  C3_cost_identity_and_nonneg env_none {} "none" c3w_line
    (by norm_num [c3w_line]) (by norm_num [c3w_line]) (by norm_num [c3w_line])
    (by norm_num [c3w_line]) (by norm_num [c3w_line]) (by norm_num [c3w_line])
    (by simp [c3w_line]) (by norm_num [params_nonneg])
    (by simp [env_none])

/-- Empty geometry payload for C6: the extractor ran but found no
profile. -/
def c6_dxf : DxfData := { success := true }

/-- Empty specification payload for C6: no BOM rows, no constraints, no
dimension strings. -/
def c6_pdf : PdfData := { success := true }

/-- C6: on completely empty extractions the engine produces exactly one
placeholder line — correlation method `"placeholder"`, confidence 0.1,
quantity 1, `quantity_source = "estimated"` — and never an empty line
list. -/
theorem C6_fallback_placeholder :
    (budget_lines (calculate_budget env_none {} [] c6_dxf c6_pdf
        "powder_coating_standard" "Obra")).map
      (fun l => (l.correlation_method, l.correlation_confidence, l.quantity,
        l.quantity_source)) =
      [("placeholder", (1 : ℚ)/10, (1 : ℤ), "estimated")] := by
  norm_num [budget_lines, calculate_budget, correlate_data, create_fallback_correlations,
    fallback_dim_step, constraints_of_type, constraint_types_in_order, build_by_reference,
    run_lines, process_correlation, resolve_qrd, py_int, rat_trunc, apply_geometry,
    geometry_from_sources, fill_pdf_length, treatment_to_finish, calculate_line_costs,
    calc_from_cost_db, formula_line_costs, compute_weight_fallback, treatment_rate,
    calculate_summary, env_none, c6_dxf, c6_pdf, py_or_str, py_or_q, py_or_opt,
    Except.map, pad2, py_take, ALUMINUM_DENSITY_KG_M3]

/-- C7: when the line's description / reference / profile id matches a
designation present in the cost database, the five cost components are
pure catalog arithmetic — catalog rates scaled by the length (in metres,
1 m when unknown) and the quantity — the result is independent of the
pricing parameters and of the selected surface treatment (so the LME spot
price and the 2700 kg/m³ density constant are never consulted), and the
formula path is skipped. -/
theorem C7_catalog_short_circuit (env : RegexEnv) (p1 p2 : PricingParameters)
    (t1 t2 : String) (line : BudgetLineItem) (sp : SteelProfile)
    (h : env.db_lookup line.description line.reference (line.profile_id.getD "") = some sp) :
    calculate_line_costs env p1 t1 line = calculate_line_costs env p2 t2 line ∧
    (calculate_line_costs env p1 t1 line).raw_material_cost =
      (if line.length_mm > 0 then line.length_mm / 1000 else 1) * sp.weight_per_meter *
        sp.price_material * ((max 1 line.quantity : ℤ) : ℚ) ∧
    (calculate_line_costs env p1 t1 line).transformation_cost =
      (if line.length_mm > 0 then line.length_mm / 1000 else 1) * sp.weight_per_meter *
        sp.price_fabrication * ((max 1 line.quantity : ℤ) : ℚ) ∧
    (calculate_line_costs env p1 t1 line).surface_treatment_cost =
      (if line.length_mm > 0 then line.length_mm / 1000 else 1) * sp.area_per_meter *
        sp.price_painting * ((max 1 line.quantity : ℤ) : ℚ) ∧
    (calculate_line_costs env p1 t1 line).labor_cost =
      ((if line.length_mm > 0 then line.length_mm / 1000 else 1) * sp.weight_per_meter *
          sp.price_assembly +
        (if line.length_mm > 0 then line.length_mm / 1000 else 1) * sp.weight_per_meter *
          sp.price_lifting) * ((max 1 line.quantity : ℤ) : ℚ) ∧
    (calculate_line_costs env p1 t1 line).accessories_cost =
      ((if line.length_mm > 0 then line.length_mm / 1000 else 1) * sp.weight_per_meter *
          sp.price_consumables +
        (if line.length_mm > 0 then line.length_mm / 1000 else 1) * sp.weight_per_meter *
          sp.price_transport) * ((max 1 line.quantity : ℤ) : ℚ) ∧
    (calculate_line_costs env p1 t1 line).total_cost =
      (calculate_line_costs env p1 t1 line).unit_cost * ((max 1 line.quantity : ℤ) : ℚ) := by
  simp only [calculate_line_costs, h]
  exact ⟨trivial, rfl, rfl, rfl, rfl, rfl, rfl⟩

/-- The `IPE 300` entry of `cost_database.py`. -/
def ipe300 : SteelProfile :=
  { code := "0480040011", designation := "IPE 300", weight_per_meter := 42.2,
    area_per_meter := 1.16, price_material := 0.85, price_fabrication := 0.25,
    price_assembly := 0.2, price_painting := 13, price_lifting := 0.05,
    price_consumables := 0.04, price_transport := 0.03 }

/-- Environment for the C7 witness: a description containing the
designation `IPE 300` resolves to the catalog entry, exactly as the
`IPE\s*\d+` pattern plus `find_profile` do in the source. -/
def c7_env : RegexEnv :=
  { db_lookup := fun d _ _ => if py_in "IPE 300" (py_upper d) then some ipe300 else none
    parse_dimension := fun _ => none }

/-- Line for the C7 witness. -/
def c7_line : BudgetLineItem :=
  { quantity := 2, description := "Viga IPE 300", length_mm := 6000 }

/-- Witness for C7 at a concrete input: the priced line does not depend on
the pricing parameters or treatment at all. -/
theorem C7_catalog_short_circuit_witness :
    calculate_line_costs c7_env {} "none" c7_line =
      calculate_line_costs c7_env { lme_price_usd_kg := 999, eur_to_usd := 2 }
        "powder_coating_seaside" c7_line :=
  (C7_catalog_short_circuit c7_env {} { lme_price_usd_kg := 999, eur_to_usd := 2 }
    "none" "powder_coating_seaside" c7_line ipe300 (by
      show (if py_in "IPE 300" (py_upper "Viga IPE 300") = true then some ipe300 else none) =
        some ipe300
      rw [if_pos (by decide)])).1

/-- Line for the C8 counterexample: known area, 400 mm perimeter, 500 mm
length, no weight, no thickness. -/
def c8_line : BudgetLineItem :=
  { quantity := 1, area_mm2 := 1, perimeter_mm := 400, length_mm := 500 }

/-- Counterexample to C8 as stated: with a 500 mm length the computed
weight uses `max(length, 1000)`, i.e. 400·2·1000/1e9·2700 = 2.16 kg, not
the claimed `perimeter × thickness × length / 1e9 × density` =
400·2·500/1e9·2700 = 1.08 kg. -/
theorem C8_weight_formula_counterexample :
    (calculate_line_costs env_none {} "none" c8_line).weight_kg =
      400 * 2 * 1000 / 1000000000 * 2700 ∧
    (calculate_line_costs env_none {} "none" c8_line).weight_kg ≠
      400 * 2 * 500 / 1000000000 * 2700 := by
  norm_num [calculate_line_costs, env_none, formula_line_costs, compute_weight_fallback,
    py_or_opt, ALUMINUM_DENSITY_KG_M3, c8_line]

/-- C8 amended: on the formula path, for a line without weight the
computed weight is `perimeter × thickness × max(length, 1000 mm) / 1e9 ×
density` when the area is known (thickness falling back to 2 mm), the
thickness-squared cross-section when only the perimeter is known, the
0.5 kg/m linear rate when only the length is known, and the 1 m / 0.5 kg
stand-in otherwise. -/
theorem C8_weight_fallback_amended (env : RegexEnv) (p : PricingParameters)
    (t : String) (line : BudgetLineItem)
    (hdb : env.db_lookup line.description line.reference (line.profile_id.getD "") = none)
    (hw : line.weight_kg ≤ 0) :
    (calculate_line_costs env p t line).weight_kg =
      if line.area_mm2 > 0 then
        line.perimeter_mm * py_or_opt line.thickness_mm 2 * max line.length_mm 1000 /
          1000000000 * ALUMINUM_DENSITY_KG_M3
      else if line.perimeter_mm > 0 then
        line.perimeter_mm * py_or_opt line.thickness_mm 2 * py_or_opt line.thickness_mm 2 /
          1000000000 * ALUMINUM_DENSITY_KG_M3
      else if line.length_mm > 0 then line.length_mm / 1000 * (1/2)
      else 1/2 := by
  simp only [calculate_line_costs, hdb, formula_line_costs, compute_weight_fallback,
    hw, true_and]
  split_ifs <;> rfl

/-- Line for the C8 amended witness: no geometry at all, so the 1 m /
0.5 kg stand-in applies. -/
def c8w_line : BudgetLineItem := { quantity := 1 }

/-- Witness for the amended C8 at a concrete input. -/
theorem C8_weight_fallback_amended_witness :
    (calculate_line_costs env_none {} "none" c8w_line).weight_kg =
      if c8w_line.area_mm2 > 0 then
        c8w_line.perimeter_mm * py_or_opt c8w_line.thickness_mm 2 *
          max c8w_line.length_mm 1000 / 1000000000 * ALUMINUM_DENSITY_KG_M3
      else if c8w_line.perimeter_mm > 0 then
        c8w_line.perimeter_mm * py_or_opt c8w_line.thickness_mm 2 *
          py_or_opt c8w_line.thickness_mm 2 / 1000000000 * ALUMINUM_DENSITY_KG_M3
      else if c8w_line.length_mm > 0 then c8w_line.length_mm / 1000 * (1/2)
      else 1/2 :=
  C8_weight_fallback_amended env_none {} "none" c8w_line rfl (by norm_num [c8w_line])

/-- Specification payload for C9: one BOM row whose quantity is the
non-numeric string `"N/A"`. -/
def c9_pdf : PdfData :=
  { success := true
    bom_items := [{ reference := "REF-1", description := "Perfil", quantity := some (.str "N/A") }] }

/-- C9 (code behaviour at the failing input): a single malformed quantity
makes `int()` raise `ValueError`, aborting the entire `calculate_budget`
run instead of degrading that line — contradicting the never-raise
failure policy. -/
theorem C9_malformed_quantity_aborts_run :
    (calculate_budget env_none {} [] {} c9_pdf "none" "Obra").1 = .error "ValueError" := by
  rfl

/-- The correlation-log state after a `calculate_budget` call is the
incoming state plus the entries appended by this run, whether or not the
run succeeded. -/
lemma calculate_budget_log (env : RegexEnv) (p : PricingParameters) (log0 : List LogEntry)
    (dxf : DxfData) (pdf : PdfData) (t pn : String) :
    (calculate_budget env p log0 dxf pdf t pn).2 =
      log0 ++ (correlate_data env dxf pdf).2 := by
  simp only [calculate_budget]
  split <;> rfl

/-- C10: across two successive runs on the same calculator, the second
output's line items are exactly those of a fresh run on the second input
(`self.line_items` is reset at the start of each run), while the second
output's correlation log still starts with everything the first run
logged (`self.correlation_log` is initialised once and never cleared). -/
theorem C10_log_accumulates_lines_reset (env : RegexEnv) (p : PricingParameters)
    (dxf1 : DxfData) (pdf1 : PdfData) (t1 pn1 : String)
    (dxf2 : DxfData) (pdf2 : PdfData) (t2 pn2 : String)
    (o1 o2 : BudgetOutput)
    (h1 : (calculate_budget env p [] dxf1 pdf1 t1 pn1).1 = .ok o1)
    (h2 : (calculate_budget env p (calculate_budget env p [] dxf1 pdf1 t1 pn1).2
      dxf2 pdf2 t2 pn2).1 = .ok o2) :
    o2.line_items = budget_lines (calculate_budget env p [] dxf2 pdf2 t2 pn2) ∧
    o2.correlation_log = o1.correlation_log ++ (correlate_data env dxf2 pdf2).2 := by
  obtain ⟨hr2, -, hlog2, -⟩ := calculate_budget_ok env p _ dxf2 pdf2 t2 pn2 o2 h2
  constructor
  · rcases hres : calculate_budget env p [] dxf2 pdf2 t2 pn2 with ⟨r, lg⟩
    have : r = (calculate_budget env p [] dxf2 pdf2 t2 pn2).1 := by rw [hres]
    rw [this]
    simp only [calculate_budget, hr2]
    rfl
  · rw [hlog2, calculate_budget_log env p [] dxf1 pdf1 t1 pn1,
      (calculate_budget_ok env p [] dxf1 pdf1 t1 pn1 o1 h1).2.2.1]

/-- Witness for C10: two successive runs on completely empty inputs; both
produce the placeholder line, and the second run's audit log still starts
with the first run's entry. -/
theorem C10_log_accumulates_lines_reset_witness :
    (budget_lines (calculate_budget env_none {}
        (calculate_budget env_none {} [] {} {} "none" "A").2 {} {} "none" "B")) =
      budget_lines (calculate_budget env_none {} [] {} {} "none" "B") := by
  rcases hres1 : calculate_budget env_none {} [] {} {} "none" "A" with ⟨r1, lg1⟩
  cases r1 with
  | error e =>
    exfalso
    have : (calculate_budget env_none {} [] {} {} "none" "A").1 = .error e := by rw [hres1]
    rw [show (calculate_budget env_none {} [] {} {} "none" "A").1 =
      .ok ((calculate_budget env_none {} [] {} {} "none" "A").1.toOption.getD {}) from rfl]
      at this
    exact absurd this (by simp)
  | ok o1 =>
    rcases hres2 : calculate_budget env_none {}
        (calculate_budget env_none {} [] {} {} "none" "A").2 {} {} "none" "B" with ⟨r2, lg2⟩
    cases r2 with
    | error e =>
      exfalso
      have h2e : (calculate_budget env_none {}
          (calculate_budget env_none {} [] {} {} "none" "A").2 {} {} "none" "B").1 =
          .error e := by rw [hres2]
      rw [calculate_budget_log env_none {} [] {} {} "none" "A"] at h2e
      rw [show (calculate_budget env_none {}
        ([] ++ (correlate_data env_none {} {}).2) {} {} "none" "B").1 =
        .ok ((calculate_budget env_none {}
          ([] ++ (correlate_data env_none {} {}).2) {} {} "none" "B").1.toOption.getD {})
        from rfl] at h2e
      exact absurd h2e (by simp)
    | ok o2 =>
      have h1 : (calculate_budget env_none {} [] {} {} "none" "A").1 = .ok o1 := by
        rw [hres1]
      have h2 : (calculate_budget env_none {}
          (calculate_budget env_none {} [] {} {} "none" "A").2 {} {} "none" "B").1 =
          .ok o2 := by rw [hres2]
      have hout := (C10_log_accumulates_lines_reset env_none {} {} {} "none" "A"
        {} {} "none" "B" o1 o2 h1 h2).1
      calc budget_lines (calculate_budget env_none {}
            (calculate_budget env_none {} [] {} {} "none" "A").2 {} {} "none" "B")
          = o2.line_items := by rw [hres2]; rfl
        _ = budget_lines (calculate_budget env_none {} [] {} {} "none" "B") := hout

end AluQuote
